import Mathlib

/-!
Verification development for the Wichita Airport Flight Tracker storage core.

The Python sources (`hdf5_storage.py`, `flight_history.py`, `backup_manager.py`,
`redis_cache.py`, `delay_predictor.py`) are translated into a shallow embedding:
pure computations become Lean functions, the on-disk stores become explicit
state values threaded through the operations, Python exceptions become
`Option`/`Except` results, and Python `datetime` values are modelled at
one-second granularity as a pair of an epoch day count and a second-of-day.
-/

set_option maxRecDepth 16384

namespace FlightTracker

/-! String primitives over the underlying character lists, modelling the
Python string operations the sources use.  (They are defined by structural
recursion so that concrete claims evaluate inside the kernel.) -/

/-- Python `c in s` for a single character. -/
def strContainsChar (s : String) (c : Char) : Bool := s.data.contains c

/-- Python `s[:n]`. -/
def strTake (s : String) (n : Nat) : String := String.mk (s.data.take n)

/-- Python `s[n:]`. -/
def strDrop (s : String) (n : Nat) : String := String.mk (s.data.drop n)

/-- Python `s[:-1]`. -/
def strDropLast (s : String) : String := String.mk s.data.dropLast

/-- Python `str.upper` (ASCII). -/
def strUpper (s : String) : String := String.mk (s.data.map Char.toUpper)

/-- Python `str.lower` (ASCII). -/
def strLower (s : String) : String := String.mk (s.data.map Char.toLower)

/-- Python `str.startswith`. -/
def strStartsWith (s pre : String) : Bool := pre.data.isPrefixOf s.data

/-- Python `str.endswith`. -/
def strEndsWith (s post : String) : Bool := post.data.isSuffixOf s.data

/-- Left-to-right non-overlapping replacement; the fuel is an upper bound on
the number of steps (the list shrinks at each consuming step). -/
def replaceFuel : Nat → List Char → List Char → List Char → List Char
  | 0, l, _, _ => l
  | fuel + 1, l, pat, rep =>
    match l with
    | [] => []
    | c :: rest =>
      if pat.isPrefixOf (c :: rest) then
        rep ++ replaceFuel fuel ((c :: rest).drop pat.length) pat rep
      else c :: replaceFuel fuel rest pat rep

/-- Python `str.replace` (all occurrences, left to right). -/
def strReplace (s pat rep : String) : String :=
  String.mk (replaceFuel (s.data.length + 1) s.data pat.data rep.data)

/-- Split at every occurrence of a separator character. -/
def splitChar (sep : Char) : List Char → List (List Char)
  | [] => [[]]
  | c :: rest =>
    match splitChar sep rest with
    | [] => [[]]
    | cur :: acc => if c = sep then [] :: cur :: acc else (c :: cur) :: acc

/-- Python `str.split(sep)` for a one-character separator. -/
def strSplit (s : String) (sep : Char) : List String :=
  (splitChar sep s.data).map String.mk

/-- Python `int(s)` restricted to plain digit strings (the only shape the
sources feed it, e.g. `'05'`); anything else models the `ValueError`. -/
def strToNat? (s : String) : Option Nat :=
  if s.data ≠ [] ∧ s.data.all Char.isDigit then
    some (s.data.foldl (fun acc c => 10 * acc + (c.toNat - '0'.toNat)) 0)
  else none

/-- A point in time at one-second granularity: `day` counts days since the
Unix epoch (1970-01-01) and `sec` is the second of that day.  This models a
Python `datetime` with `microsecond = 0`. -/
structure DateTime where
  day : Int
  sec : Int
  deriving Repr, DecidableEq

/-- Total seconds since the epoch; Python `datetime` comparison agrees with
comparison of this quantity. -/
def DateTime.toSecs (t : DateTime) : Int := t.day * 86400 + t.sec

/-- Civil (year, month, day) of an epoch day count, proleptic Gregorian
calendar (the algorithm used by C++/Python date libraries). -/
def civilFromDays (z0 : Int) : Int × Int × Int :=
  let z := z0 + 719468
  let era := z.fdiv 146097
  let doe := z - era * 146097
  let yoe := (doe - doe.fdiv 1460 + doe.fdiv 36524 - doe.fdiv 146096).fdiv 365
  let y := yoe + era * 400
  let doy := doe - (365 * yoe + yoe.fdiv 4 - yoe.fdiv 100)
  let mp := (5 * doy + 2).fdiv 153
  let d := doy - (153 * mp + 2).fdiv 5 + 1
  let m := mp + (if mp < 10 then 3 else -9)
  (y + (if m ≤ 2 then 1 else 0), m, d)

/-- Epoch day count of a civil (year, month, day), proleptic Gregorian. -/
def daysFromCivil (y0 m d : Int) : Int :=
  let y := y0 - (if m ≤ 2 then 1 else 0)
  let era := y.fdiv 400
  let yoe := y - era * 400
  let doy := (153 * (m + (if m > 2 then -3 else 9)) + 2).fdiv 5 + d - 1
  let doe := yoe * 365 + yoe.fdiv 4 - yoe.fdiv 100 + doy
  era * 146097 + doe - 719468

/-- Zero-pad a non-negative integer to the given width, as Python `strftime`
field formatting does. -/
def padNum (width : Nat) (n : Int) : String :=
  let s := toString n.toNat
  String.mk (List.replicate (width - s.length) '0') ++ s

/-- `strftime('%Y-%m-%d')` of a date given as an epoch day count. -/
def printDateKey (z : Int) : String :=
  let c := civilFromDays z
  padNum 4 c.1 ++ "-" ++ padNum 2 c.2.1 ++ "-" ++ padNum 2 c.2.2

/-- `datetime.isoformat()` for a whole-second datetime. -/
def DateTime.isoformat (t : DateTime) : String :=
  let h := t.sec.fdiv 3600
  let mi := (t.sec - h * 3600).fdiv 60
  let s := t.sec - h * 3600 - mi * 60
  printDateKey t.day ++ "T" ++ padNum 2 h ++ ":" ++ padNum 2 mi ++ ":" ++ padNum 2 s

/-- Numeric value of a decimal digit character. -/
def digitVal (c : Char) : Int := (c.toNat - '0'.toNat : Nat)

/-- Python's Gregorian leap-year test. -/
def isLeapYear (y : Int) : Bool := y % 4 = 0 ∧ (y % 100 ≠ 0 ∨ y % 400 = 0)

/-- Length of a month, as validated by Python's date constructors. -/
def daysInMonth (y m : Int) : Int :=
  if m = 2 then (if isLeapYear y then 29 else 28)
  else if m = 4 ∨ m = 6 ∨ m = 9 ∨ m = 11 then 30
  else 31

/-- Parse a `YYYY-MM-DD` string into a civil (year, month, day), validating
digit positions and calendar ranges as `datetime.strptime(s, '%Y-%m-%d')`
does (zero-padded two-digit month/day, as produced by `strftime`). -/
def parseDateFields (s : String) : Option (Int × Int × Int) :=
  match s.data with
  | [y1, y2, y3, y4, h1, m1, m2, h2, d1, d2] =>
    if y1.isDigit && y2.isDigit && y3.isDigit && y4.isDigit && h1 = '-' &&
       m1.isDigit && m2.isDigit && h2 = '-' && d1.isDigit && d2.isDigit then
      let y := 1000 * digitVal y1 + 100 * digitVal y2 + 10 * digitVal y3 + digitVal y4
      let m := 10 * digitVal m1 + digitVal m2
      let d := 10 * digitVal d1 + digitVal d2
      if 1 ≤ m ∧ m ≤ 12 ∧ 1 ≤ d ∧ d ≤ daysInMonth y m then some (y, m, d) else none
    else none
  | _ => none

/-- `datetime.strptime(key, '%Y-%m-%d')`, returned as an epoch day count;
`none` models the `ValueError` raised on an unparseable key. -/
def parseDateKey (s : String) : Option Int :=
  (parseDateFields s).map fun c => daysFromCivil c.1 c.2.1 c.2.2

/-- Parse an `HH:MM` or `HH:MM:SS` time-of-day (optionally followed by a
`+HH:MM` / `-HH:MM` UTC offset, which `fromisoformat` records as `tzinfo`
while keeping the naive clock fields) into a second-of-day. -/
def parseTimeFields (cs : List Char) : Option Int :=
  let core : List Char → Option Int := fun t =>
    match t with
    | [a, b, ':', c, d] =>
      if a.isDigit && b.isDigit && c.isDigit && d.isDigit then
        let h := 10 * digitVal a + digitVal b
        let mi := 10 * digitVal c + digitVal d
        if h ≤ 23 ∧ mi ≤ 59 then some (h * 3600 + mi * 60) else none
      else none
    | [a, b, ':', c, d, ':', e, f] =>
      if a.isDigit && b.isDigit && c.isDigit && d.isDigit && e.isDigit && f.isDigit then
        let h := 10 * digitVal a + digitVal b
        let mi := 10 * digitVal c + digitVal d
        let s := 10 * digitVal e + digitVal f
        if h ≤ 23 ∧ mi ≤ 59 ∧ s ≤ 59 then some (h * 3600 + mi * 60 + s) else none
      else none
    | _ => none
  match cs.findIdx? (fun c => c = '+' || c = '-') with
  | none => core cs
  | some i =>
    let off := cs.drop (i + 1)
    match off with
    | [a, b, ':', c, d] =>
      if a.isDigit && b.isDigit && c.isDigit && d.isDigit then core (cs.take i) else none
    | _ => none

/-- `datetime.fromisoformat`: a valid `YYYY-MM-DD` date, either alone or
followed by a one-character separator and a time-of-day.  `none` models the
`ValueError` raised on malformed input. -/
def parseIso (s : String) : Option DateTime :=
  let cs := s.data
  match parseDateFields (String.mk (cs.take 10)) with
  | none => none
  | some (y, m, d) =>
    if cs.length = 10 then some ⟨daysFromCivil y m d, 0⟩
    else
      match parseTimeFields (cs.drop 11) with
      | none => none
      | some sec => some ⟨daysFromCivil y m d, sec⟩

/-- Substring containment, Python's `needle in haystack`. -/
def containsSub (haystack needle : String) : Bool :=
  (List.range (haystack.data.length + 1)).any fun i =>
    needle.data.isPrefixOf (haystack.data.drop i)

/-- Association-list lookup by string key (models Python dict / HDF5 group
member access). -/
def getAssoc {α : Type} (l : List (String × α)) (k : String) : Option α :=
  match l with
  | [] => none
  | (k', v) :: rest => if k' = k then some v else getAssoc rest k

/-- Association-list update: replace the value at `k` (created from `none`
when absent), leaving all other keys untouched. -/
def updAssoc {α : Type} (l : List (String × α)) (k : String) (f : Option α → α) :
    List (String × α) :=
  match l with
  | [] => [(k, f none)]
  | (k', v) :: rest => if k' = k then (k, f (some v)) :: rest else (k', v) :: updAssoc rest k f

namespace Hdf5

/-- A `scheduled_time` dict value: the source branches on
`isinstance(scheduled_time, str)`, the non-string case being a `datetime`. -/
inductive SchedVal where
  | str (s : String)
  | dtv (t : DateTime)
  deriving Repr, DecidableEq

/-- The flight dict fed to `_write_flight_sync`, restricted to the keys the
write path reads (`flight_number`, `scheduled_time`, `status`, `gate`,
`terminal`); `none` models an absent key or a `None` value. -/
structure FlightData where
  flight_number : Option String := none
  scheduled_time : Option SchedVal := none
  status : Option String := none
  gate : Option String := none
  terminal : Option String := none
  deriving Repr, DecidableEq

/-- One JSON blob of the `status_history` dataset:
`{timestamp, status, gate, terminal}`. -/
structure StatusEntry where
  timestamp : DateTime
  status : String
  gate : Option String
  terminal : Option String
  deriving Repr, DecidableEq

/-- One `/{category}/{date}/{flight_number}` HDF5 group: the mutable
attribute set plus the append-only `status_history` dataset. -/
structure FlightGroup where
  flight_number : String
  scheduled_time : SchedVal
  last_updated : DateTime
  data : FlightData
  status_history : List StatusEntry
  deriving Repr, DecidableEq

/-- A date bucket: flight_number → group. -/
abbrev DateGroup := List (String × FlightGroup)

/-- A category: date key → date bucket. -/
abbrev CatGroup := List (String × DateGroup)

/-- The HDF5 file with its two fixed top-level groups. -/
structure Store where
  arrivals : CatGroup := []
  departures : CatGroup := []
  deriving Repr, DecidableEq

/-- `f[flight_type]`: `none` models the `KeyError` on any other name. -/
def Store.category? (f : Store) (flight_type : String) : Option CatGroup :=
  if flight_type = "arrivals" then some f.arrivals
  else if flight_type = "departures" then some f.departures
  else none

/-- Write back the contents of one top-level group. -/
def Store.setCategory (f : Store) (flight_type : String) (g : CatGroup) : Store :=
  if flight_type = "arrivals" then { f with arrivals := g }
  else if flight_type = "departures" then { f with departures := g }
  else f

/-- The attribute-overwrite loop `for key, value in flight_data.items(): if
value is not None: attrs[key] = value` — present (non-`None`) fields of the
new dict overwrite, absent ones keep the stored value. -/
def FlightData.mergeInto (new old : FlightData) : FlightData :=
  { flight_number := new.flight_number.rec old.flight_number (some ·)
    scheduled_time := new.scheduled_time.rec old.scheduled_time (some ·)
    status := new.status.rec old.status (some ·)
    gate := new.gate.rec old.gate (some ·)
    terminal := new.terminal.rec old.terminal (some ·) }

/-- The date-resolution block of `_write_flight_sync` (lines 108-123):
derives the `datetime` used for the date bucket from the scheduled-time
value, falling back to `now`; `none` models an exception inside the block
(`fromisoformat` / `int()` / `replace` raising). -/
def resolveDt (scheduled_time : SchedVal) (now : DateTime) : Option DateTime :=
  match scheduled_time with
  | .str s =>
    if s = "" ∨ s = "N/A" ∨ s = "None" then some now
    else if strContainsChar s 'T' ∨ strContainsChar s '-' then
      parseIso (strReplace s "Z" "+00:00")
    else if strContainsChar s ':' then
      match strSplit s ':' with
      | hs :: ms :: _ =>
        match strToNat? hs, strToNat? ms with
        | some h, some mi =>
          if h ≤ 23 ∧ mi ≤ 59 then some ⟨now.day, (h : Int) * 3600 + (mi : Int) * 60⟩
          else none
        | _, _ => none
      | _ => none
    else some now
  | .dtv t => some t

/-- The status-history entry appended by one write. -/
def writeEntry (flight_data : FlightData) (now : DateTime) : StatusEntry :=
  { timestamp := now, status := flight_data.status.getD "Unknown",
    gate := flight_data.gate, terminal := flight_data.terminal }

/-- The create-or-update block for one flight group: attributes are
overwritten, the history dataset is created as a singleton or extended by
one entry. -/
def updateGroup (flight_number : String) (scheduled_time : SchedVal) (now : DateTime)
    (flight_data : FlightData) : Option FlightGroup → FlightGroup
  | none =>
    { flight_number := flight_number, scheduled_time := scheduled_time,
      last_updated := now, data := flight_data,
      status_history := [writeEntry flight_data now] }
  | some g =>
    { flight_number := flight_number, scheduled_time := scheduled_time,
      last_updated := now, data := flight_data.mergeInto g.data,
      status_history := g.status_history ++ [writeEntry flight_data now] }

/-- `FlightHDF5Storage._write_flight_sync`.  The surrounding `try`/`except`
that turns any exception into a `False` return is the `Option`: `none` is the
`False` outcome (store unchanged), `some f'` the `True` outcome. -/
def writeFlightSync (f : Store) (flight_data : FlightData) (flight_type : String)
    (now : DateTime) : Option Store :=
  let flight_number := flight_data.flight_number.getD "UNKNOWN"
  let scheduled_time := flight_data.scheduled_time.getD (.str now.isoformat)
  match resolveDt scheduled_time now with
  | none => none
  | some dt =>
    let date_key := printDateKey dt.day
    match f.category? flight_type with
    | none => none
    | some base =>
      let base' := updAssoc base date_key fun dg? =>
        updAssoc (dg?.getD []) flight_number
          (updateGroup flight_number scheduled_time now flight_data)
      some (f.setCategory flight_type base')

/-- The `status_history` stored under `(date_key, flight_number)` inside one
category group (`[]` when the key is absent). -/
def historyInCat (grp : CatGroup) (date_key flight_number : String) :
    List StatusEntry :=
  match getAssoc grp date_key with
  | none => []
  | some dg =>
    match getAssoc dg flight_number with
    | none => []
    | some g => g.status_history

/-- The `status_history` stored under one hierarchical key (`[]` when the
key is absent). -/
def historyAt (f : Store) (flight_type date_key flight_number : String) :
    List StatusEntry :=
  match f.category? flight_type with
  | none => []
  | some grp => historyInCat grp date_key flight_number

/-- One element of the list returned by `get_flights`: the attribute set of a
group plus `current_status` / `status_updated_at` derived from the last
history entry (absent when the history is empty). -/
structure QueryRec where
  flight_type : String
  flight_number : String
  scheduled_time : SchedVal
  last_updated : DateTime
  data : FlightData
  current_status : Option String
  status_updated_at : Option DateTime
  deriving Repr, DecidableEq

/-- Conversion of one stored group into a query result
(`flight_type[:-1]`, attributes, latest status). -/
def recordOf (flight_type : String) (g : FlightGroup) : QueryRec :=
  { flight_type := strDropLast flight_type
    flight_number := g.flight_number
    scheduled_time := g.scheduled_time
    last_updated := g.last_updated
    data := g.data
    current_status := g.status_history.getLast?.map (·.status)
    status_updated_at := g.status_history.getLast?.map (·.timestamp) }

/-- Inner loop of `get_flights` over the flights of one date bucket. -/
def bucketRecords (flight_type : String) (dg : DateGroup) : List QueryRec :=
  match dg with
  | [] => []
  | (_, g) :: rest => recordOf flight_type g :: bucketRecords flight_type rest

/-- Outer loop of `get_flights` over the date buckets: an unparseable key
(`ValueError` from `strptime`, caught) or a bucket before the cutoff is
skipped. -/
def collectBuckets (flight_type : String) (cutoff : DateTime) (grp : CatGroup) :
    List QueryRec :=
  match grp with
  | [] => []
  | (date_key, dg) :: rest =>
    match parseDateKey date_key with
    | none => collectBuckets flight_type cutoff rest
    | some dobj =>
      if (DateTime.mk dobj 0).toSecs < cutoff.toSecs then
        collectBuckets flight_type cutoff rest
      else bucketRecords flight_type dg ++ collectBuckets flight_type cutoff rest

/-- `FlightHDF5Storage.get_flights(flight_type, days)` evaluated at wall
clock `now`; the cutoff is `datetime.now() - timedelta(days=days)`. -/
def getFlights (f : Store) (flight_type : String) (days : Int) (now : DateTime) :
    List QueryRec :=
  match f.category? flight_type with
  | none => []
  | some grp => collectBuckets flight_type ⟨now.day - days, now.sec⟩ grp

end Hdf5

namespace FlightHistory

/-- A SQLite value bound to one `?` placeholder. -/
inductive SqlValue where
  | s (v : String)
  | i (v : Int)
  | null
  deriving Repr, DecidableEq

/-- The INSERT statement of `FlightHistoryDB.save_flight`, verbatim. -/
def insertFlightsSQL : String :=
  "INSERT INTO flights (
      flight_number, airline, origin, destination, flight_type,
      scheduled_time, actual_time, status, aircraft_type, aircraft_registration,
      altitude, ground_speed, source,
      temperature, wind_speed, visibility, precipitation, humidity, weather_condition,
      inbound_flight_number, inbound_delay_minutes
  ) VALUES (?, ?, ?, ?, ?, ?, ?, ?, ?, ?, ?, ?, ?, ?, ?, ?, ?, ?, ?, ?, ?)
  ON CONFLICT(flight_number, scheduled_time, flight_type)
  DO UPDATE SET
      status = excluded.status,
      actual_time = excluded.actual_time,
      altitude = excluded.altitude,
      ground_speed = excluded.ground_speed,
      last_updated = CURRENT_TIMESTAMP"

/-- The flight dict fed to `save_flight`, restricted to the keys whose values
end up in the parameter tuple (the weather/inbound extractions bind locals
that never reach `execute` and are omitted).  `Type'` stands for the dict key
`Type`, which is a reserved word in Lean. -/
structure FlightDict where
  Flight_Number : Option String := none
  Airline : Option String := none
  Origin : Option String := none
  origin : Option String := none
  Destination : Option String := none
  destination : Option String := none
  Type' : Option String := none
  Scheduled_Time : Option String := none
  Actual_Time : Option String := none
  actual_time : Option String := none
  Status : Option String := none
  aircraft_type : Option String := none
  altitude : Option Int := none
  ground_speed : Option Int := none
  source : Option String := none
  deriving Repr, DecidableEq

/-- The value tuple passed to `cursor.execute` (12 values). -/
def paramsOf (flight : FlightDict) : List SqlValue :=
  [ .s (flight.Flight_Number.getD "UNKNOWN"),
    .s (flight.Airline.getD "Unknown"),
    .s (flight.Origin.getD (flight.origin.getD "Unknown")),
    .s (flight.Destination.getD (flight.destination.getD "Unknown")),
    .s (flight.Type'.getD "Unknown"),
    .s (flight.Scheduled_Time.getD ""),
    .s (flight.Actual_Time.getD (flight.actual_time.getD "")),
    .s (flight.Status.getD "Unknown"),
    .s (flight.aircraft_type.getD ""),
    .i (flight.altitude.getD 0),
    .i (flight.ground_speed.getD 0),
    .s (flight.source.getD "Unknown") ]

/-- The `flights` table, each row being the bound values of one insert. -/
abbrev Table := List (List SqlValue)

/-- Number of `?` placeholders in a statement. -/
def countPlaceholders (sql : String) : Nat := sql.data.countP (· = '?')

/-- `cursor.execute(sql, params)`: sqlite3 raises `ProgrammingError` when the
number of supplied bindings differs from the number of placeholders.  The
success branch (unreachable for the statement at hand) is modelled as a plain
row append. -/
def executeInsert (sql : String) (params : List SqlValue) (tbl : Table) :
    Except String Table :=
  if params.length = countPlaceholders sql then .ok (tbl ++ [params])
  else .error "Incorrect number of bindings supplied"

/-- `FlightHistoryDB.save_flight`: the `except` clause swallows any error and
the function returns normally with the table as it was. -/
def saveFlight (tbl : Table) (flight : FlightDict) : Table :=
  match executeInsert insertFlightsSQL (paramsOf flight) tbl with
  | .ok t => t
  | .error _ => tbl

/-- `FlightHistoryDB.save_flights_batch`. -/
def saveFlightsBatch (tbl : Table) (flights : List FlightDict) : Table :=
  flights.foldl saveFlight tbl

end FlightHistory

namespace Predictor

/-- The flight dict read by `DelayPredictor`; `Type'` stands for the dict key
`Type` (reserved in Lean). -/
structure Flight where
  Scheduled_Time : Option String := none
  Airline : Option String := none
  Type' : Option String := none
  Origin : Option String := none
  Destination : Option String := none
  inbound_delay_minutes : Option Int := none
  deriving Repr, DecidableEq

/-- The weather dict; numeric fields are exact rationals (the float literals
the source compares against are representable, and every comparison the
rules make coincides with the float comparison on these magnitudes). -/
structure Weather where
  Precipitation_inches : Option ℚ := none
  Wind_Speed_mph : Option ℚ := none
  Visibility_miles : Option ℚ := none
  Condition : Option String := none
  deriving Repr, DecidableEq

/-- The explanatory factor strings, one constructor per distinct message,
carrying the interpolated values. -/
inductive Factor where
  | heavyPrecipitation (precip : ℚ)
  | lightPrecipitation (precip : ℚ)
  | highWinds (wind : ℚ)
  | moderateWinds (wind : ℚ)
  | veryLowVisibility (visibility : ℚ)
  | lowVisibility (visibility : ℚ)
  | severeWeather (condition : Option String)
  | adverseWeather (condition : Option String)
  | morningRush
  | eveningRush
  | offPeak
  | higherDelayRate (airline : String)
  | goodOnTime (airline : String)
  | majorHub (origin : String)
  | inboundDelayed (minutes : Int)
  deriving Repr, DecidableEq

/-- `DelayPredictor.AIRLINE_DELAY_RATES`. -/
def AIRLINE_DELAY_RATES : List (String × Nat) :=
  [("AA", 18), ("DL", 12), ("UA", 16), ("WN", 22), ("AS", 11),
   ("B6", 15), ("NK", 28), ("F9", 25), ("G4", 30)]

/-- `DelayPredictor.RUSH_HOURS`. -/
def RUSH_HOURS : List (Int × Int) := [(6, 9), (16, 19)]

/-- `DelayPredictor._evaluate_weather`. -/
def evaluateWeather (weather : Weather) : Int × List Factor :=
  let precip := weather.Precipitation_inches.getD 0
  let p : Int × List Factor :=
    if precip > mkRat 1 2 then (25, [.heavyPrecipitation precip])
    else if precip > mkRat 1 10 then (15, [.lightPrecipitation precip])
    else (0, [])
  let wind := weather.Wind_Speed_mph.getD 0
  let w : Int × List Factor :=
    if wind > 35 then (20, [.highWinds wind])
    else if wind > 25 then (10, [.moderateWinds wind])
    else (0, [])
  let visibility := weather.Visibility_miles.getD 10
  let v : Int × List Factor :=
    if visibility < 1 then (25, [.veryLowVisibility visibility])
    else if visibility < 3 then (15, [.lowVisibility visibility])
    else (0, [])
  let condition := strLower (weather.Condition.getD "")
  let c : Int × List Factor :=
    if ["thunderstorm", "heavy snow", "blizzard"].any (containsSub condition) then
      (30, [.severeWeather weather.Condition])
    else if ["rain", "snow", "fog"].any (containsSub condition) then
      (10, [.adverseWeather weather.Condition])
    else (0, [])
  (p.1 + w.1 + v.1 + c.1, p.2 ++ w.2 ++ v.2 ++ c.2)

/-- `DelayPredictor._evaluate_time`: scoring happens only for a non-sentinel
ISO (`'T'`-containing) scheduled time; a `fromisoformat` failure is caught
(score stays 0).  The rush-hour loop with `break` is the first matching
range. -/
def evaluateTime (flight : Flight) : Int × List Factor :=
  let scheduled := flight.Scheduled_Time.getD ""
  if scheduled ≠ "" ∧ scheduled ≠ "N/A" then
    if strContainsChar scheduled 'T' then
      match parseIso (strReplace scheduled "Z" "+00:00") with
      | none => (0, [])
      | some dt =>
        let hour := dt.sec.fdiv 3600
        let rush : Int × List Factor :=
          match RUSH_HOURS.find? (fun p => p.1 ≤ hour && hour < p.2) with
          | some p => (15, [if p.1 = 6 then .morningRush else .eveningRush])
          | none => (0, [])
        let off : Int × List Factor :=
          if (0 ≤ hour ∧ hour < 6) ∨ (22 ≤ hour ∧ hour < 24) then (-5, [.offPeak])
          else (0, [])
        (rush.1 + off.1, rush.2 ++ off.2)
    else (0, [])
  else (0, [])

/-- `DelayPredictor._evaluate_airline`.  `int((delay_rate / 30) * 20)`
truncates toward zero; on every rate in the table the float computation
truncates to the same value as exact rational division, i.e. `Nat` division
`delay_rate * 20 / 30`. -/
def evaluateAirline (flight : Flight) : Int × List Factor :=
  let airline := flight.Airline.getD ""
  let airline_code := if airline ≠ "" then strUpper (strTake airline 2) else ""
  match getAssoc AIRLINE_DELAY_RATES airline_code with
  | some delay_rate =>
    let score : Int := (delay_rate * 20 / 30 : Nat)
    let factors : List Factor :=
      if delay_rate > 25 then [.higherDelayRate airline]
      else if delay_rate < 15 then [.goodOnTime airline]
      else []
    (score, factors)
  | none => (0, [])

/-- The fixed major-hub origins of `_evaluate_flight_type`. -/
def MAJOR_HUBS : List String := ["ATL", "ORD", "DFW", "DEN", "LAX", "JFK", "EWR"]

/-- `DelayPredictor._evaluate_flight_type`. -/
def evaluateFlightType (flight : Flight) : Int × List Factor :=
  if flight.Type'.getD "" = "Arrival" then
    let origin := flight.Origin.getD ""
    if MAJOR_HUBS.any (fun h => h = origin) then (10, [.majorHub origin]) else (0, [])
  else (0, [])

/-- `DelayPredictor._evaluate_cascading_delays` (`if inbound_delay and
inbound_delay > 0` — truthiness plus the explicit comparison). -/
def evaluateCascadingDelays (flight : Flight) : Int × List Factor :=
  let inbound_delay := flight.inbound_delay_minutes.getD 0
  if inbound_delay ≠ 0 ∧ inbound_delay > 0 then
    if inbound_delay > 60 then (15, [.inboundDelayed inbound_delay])
    else if inbound_delay > 30 then (10, [.inboundDelayed inbound_delay])
    else (0, [])
  else (0, [])

/-- `DelayPredictor._calculate_confidence`; the falsy tests accept both an
absent key and an empty string. -/
def calculateConfidence (flight : Flight) (weather : Option Weather) : Int :=
  let c0 : Int := 100
  let c1 := c0 - (if weather = none then 20 else 0)
  let c2 := c1 -
    (if flight.Scheduled_Time = none ∨ flight.Scheduled_Time = some "" ∨
        flight.Scheduled_Time = some "N/A" then 15 else 0)
  let c3 := c2 - (if flight.Airline = none ∨ flight.Airline = some "" then 10 else 0)
  let c4 := c3 -
    (if (flight.Origin = none ∨ flight.Origin = some "") ∧
        (flight.Destination = none ∨ flight.Destination = some "") then 10 else 0)
  max 30 c4

/-- The dict returned by `predict` (the constant `model_type` /
`model_version` entries are omitted). -/
structure Prediction where
  risk_level : String
  risk_score : Int
  confidence : Int
  factors : List Factor
  recommendation : String
  deriving Repr, DecidableEq

/-- `DelayPredictor.predict`. -/
def predict (flight : Flight) (weather : Option Weather) : Prediction :=
  let w : Int × List Factor :=
    match weather with
    | some wx => evaluateWeather wx
    | none => (0, [])
  let t := evaluateTime flight
  let a := evaluateAirline flight
  let ty := evaluateFlightType flight
  let ca := evaluateCascadingDelays flight
  let risk_score := w.1 + t.1 + a.1 + ty.1 + ca.1
  let factors := w.2 ++ t.2 ++ a.2 ++ ty.2 ++ ca.2
  let lr : String × String :=
    if risk_score ≥ 60 then ("High", "Consider alternate flights or allow extra time")
    else if risk_score ≥ 35 then ("Medium", "Monitor flight status closely")
    else ("Low", "Flight expected on time")
  { risk_level := lr.1, risk_score := min 100 risk_score,
    confidence := calculateConfidence flight weather, factors := factors,
    recommendation := lr.2 }

end Predictor

namespace Backup

/-- One file of the backup directory: name and `st_mtime` (epoch seconds). -/
structure FileEnt where
  name : String
  mtime : Int
  deriving Repr, DecidableEq

/-- `BackupManager.config` (source defaults). -/
structure Config where
  hourly_retention : Int := 12
  daily_retention : Int := 14
  weekly_retention : Int := 8
  monthly_retention : Int := 6
  compress_after_days : Int := 3
  deriving Repr, DecidableEq

/-- `backup_dir.glob('flight_history_*.db*')`. -/
def matchesDbGlob (name : String) : Bool :=
  strStartsWith name "flight_history_" && containsSub (strDrop name 15) ".db"

/-- The `(backup_type, retention)` pairs iterated by `cleanup_old_backups`,
with each tier's `timedelta(days=...)` converted to seconds
(`hourly_retention / 24` fractional days = `hourly_retention` hours). -/
def tiersOf (cfg : Config) : List (String × Int) :=
  [("hourly", cfg.hourly_retention * 3600),
   ("daily", cfg.daily_retention * 86400),
   ("weekly", cfg.weekly_retention * 7 * 86400),
   ("monthly", cfg.monthly_retention * 30 * 86400)]

/-- `str(backup_file).replace('.db.gz', '.json.gz').replace('.db', '.json')`. -/
def metadataName (name : String) : String :=
  strReplace (strReplace name ".db.gz" ".json.gz") ".db" ".json"

/-- `unlink` as removal from the directory listing. -/
def removeFile (fs : List FileEnt) (name : String) : List FileEnt :=
  fs.filter (fun f => f.name ≠ name)

/-- `Path.exists` against the directory listing. -/
def existsFile (fs : List FileEnt) (name : String) : Bool :=
  fs.any (fun f => f.name = name)

/-- The per-tier deletion loop of `cleanup_old_backups`: a matching artifact
older than the cutoff is unlinked together with its metadata sidecar when
that exists. -/
def cleanupTier (cutoff : Int) (type_files : List FileEnt) (fs : List FileEnt) :
    List FileEnt :=
  match type_files with
  | [] => fs
  | f :: rest =>
    if f.mtime < cutoff then
      let fs1 := removeFile fs f.name
      let meta := metadataName f.name
      let fs2 := if existsFile fs1 meta then removeFile fs1 meta else fs1
      cleanupTier cutoff rest fs2
    else cleanupTier cutoff rest fs

/-- `BackupManager.cleanup_old_backups` at wall clock `now` over a directory
listing.  The candidate list is globbed once, before the tier loop, with the
pattern `flight_history_*.db*`. -/
def cleanupOldBackups (cfg : Config) (now : Int) (fs : List FileEnt) : List FileEnt :=
  let backup_files := fs.filter (fun f => matchesDbGlob f.name)
  (tiersOf cfg).foldl
    (fun acc tier =>
      let cutoff := now - tier.2
      let type_files := backup_files.filter
        (fun f => containsSub f.name ("_" ++ tier.1 ++ "_"))
      cleanupTier cutoff type_files acc)
    fs

/-- `f'flight_history_{backup_type}_{timestamp}.db'`. -/
def sqliteBackupName (backup_type timestamp : String) : String :=
  "flight_history_" ++ backup_type ++ "_" ++ timestamp ++ ".db"

/-- `f'flight_history_{backup_type}_{timestamp}.h5'`. -/
def hdf5BackupName (backup_type timestamp : String) : String :=
  "flight_history_" ++ backup_type ++ "_" ++ timestamp ++ ".h5"

/-- Observable outcome of one `create_backup` call: the files it writes into
the backup directory and its return value (`none` = Python `None`). -/
structure BackupResult where
  created : List String
  ret : Option (List (String × String))
  deriving Repr, DecidableEq

/-- `BackupManager.create_backup`: each existing source store is copied to a
timestamped artifact; with no source store present the result is `None`
(logged as a warning, no exception). -/
def createBackup (backup_type timestamp : String) (dbExists hdf5Exists : Bool) :
    BackupResult :=
  let sqlitePart : List (String × String) :=
    if dbExists then [("SQLite", sqliteBackupName backup_type timestamp)] else []
  let hdf5Part : List (String × String) :=
    if hdf5Exists then [("HDF5", hdf5BackupName backup_type timestamp)] else []
  let backups_created := sqlitePart ++ hdf5Part
  { created := backups_created.map (·.2)
    ret := if backups_created.isEmpty then none else some backups_created }

end Backup

namespace Redis

/-- The observable transport behaviour of the external cache backend: each
call either returns (a hit carrying the already-deserialized value) or
raises. -/
structure Backend (α : Type) where
  getResp : String → Except String (Option α)
  setResp : String → Int → α → Except String Unit

/-- Outcome of `redis.Redis(...)` plus the `ping()` probe in `__init__`. -/
inductive ConnAttempt (α : Type) where
  | ok (b : Backend α)
  | connError (msg : String)
  | timeoutError (msg : String)

/-- The state `__init__` leaves behind. -/
structure RedisCache (α : Type) where
  ttl : Int
  enabled : Bool
  redis : Option (Backend α)

/-- `RedisCache.__init__`: a `ConnectionError`/`TimeoutError` is caught,
leaving `enabled = False` and `redis = None`; construction succeeds either
way. -/
def RedisCache.init {α : Type} (ttl : Int) (attempt : ConnAttempt α) : RedisCache α :=
  match attempt with
  | .ok b => { ttl := ttl, enabled := true, redis := some b }
  | .connError _ => { ttl := ttl, enabled := false, redis := none }
  | .timeoutError _ => { ttl := ttl, enabled := false, redis := none }

/-- `RedisCache.get`: `None` on a disabled cache; the broad `except` turns
any transport error into `None` as well. -/
def RedisCache.get {α : Type} (c : RedisCache α) (key : String) : Option α :=
  if !c.enabled then none
  else
    match c.redis with
    | none => none
    | some b =>
      match b.getResp key with
      | .error _ => none
      | .ok v => v

/-- `RedisCache.set`: `False` on a disabled cache; a transport error is
caught and reported as `False`. -/
def RedisCache.set {α : Type} (c : RedisCache α) (key : String) (value : α)
    (ttl : Option Int) : Bool :=
  if !c.enabled then false
  else
    match c.redis with
    | none => false
    | some b =>
      match b.setResp key (ttl.getD c.ttl) value with
      | .error _ => false
      | .ok _ => true

end Redis

/-! ### Concrete fixtures used by the claim theorems -/

/-- An observation of flight AA123 scheduled 2024-01-15 08:00, with the given
status. -/
def c1Flight (status : String) : Hdf5.FlightData :=
  { flight_number := some "AA123",
    scheduled_time := some (.str "2024-01-15T08:00:00"),
    status := some status }

/-- The store after the first upsert of the three-upsert scenario
(2024-01-15 is epoch day 19737). -/
def c1S1 : Hdf5.Store :=
  (Hdf5.writeFlightSync {} (c1Flight "On Time") "arrivals" ⟨19737, 100⟩).getD {}

/-- The store after three upserts of the same key on the same day, statuses
On Time / Delayed / Landed at increasing wall-clock times. -/
def c1Store3 : Option Hdf5.Store :=
  (Hdf5.writeFlightSync {} (c1Flight "On Time") "arrivals" ⟨19737, 100⟩).bind fun s1 =>
  (Hdf5.writeFlightSync s1 (c1Flight "Delayed") "arrivals" ⟨19737, 200⟩).bind fun s2 =>
  Hdf5.writeFlightSync s2 (c1Flight "Landed") "arrivals" ⟨19737, 300⟩

/-- A flight scheduled at 23:30 (off-peak), with no weather, airline, origin,
destination or inbound-delay data. -/
def c3Flight : Predictor.Flight := { Scheduled_Time := some "2024-01-15T23:30:00" }

/-- The severe-weather snapshot of the spec's concrete scenario. -/
def c4Weather : Predictor.Weather :=
  { Precipitation_inches := some (mkRat 6 10), Wind_Speed_mph := some 40,
    Visibility_miles := some (mkRat 1 2), Condition := some "Thunderstorm" }

/-- The spec scenario's flight: 07:00 ISO schedule, carrier NK (28% table
rate), arrival from ORD, no inbound-delay data. -/
def c4Flight : Predictor.Flight :=
  { Scheduled_Time := some "2024-01-15T07:00:00", Airline := some "NK",
    Type' := some "Arrival", Origin := some "ORD" }

/-- A stored record in the bucket dated 2024-01-14 (epoch day 19736). -/
def c6Group : Hdf5.FlightGroup :=
  { flight_number := "AA123", scheduled_time := .str "2024-01-14T08:00:00",
    last_updated := ⟨19736, 0⟩, data := {},
    status_history := [⟨⟨19736, 0⟩, "On Time", none, none⟩] }

/-- A store holding exactly one record, under the bucket dated 2024-01-14. -/
def c6Store : Hdf5.Store := { arrivals := [("2024-01-14", [("AA123", c6Group)])] }

/-- A backup directory holding a 10-day-old hourly HDF5 artifact and a
10-day-old hourly SQLite artifact (`now` will be 1000000000). -/
def c7Dir : List Backup.FileEnt :=
  [⟨"flight_history_hourly_20240101_000000.h5", 999136000⟩,
   ⟨"flight_history_hourly_20240101_000000.db", 999136000⟩]

/-- A backend whose every call raises. -/
def c9Backend : Redis.Backend Nat :=
  ⟨fun _ => .error "boom", fun _ _ _ => .error "boom"⟩

/-- The cache produced by `__init__` when the backend is unreachable. -/
def c9Disabled : Redis.RedisCache Nat := Redis.RedisCache.init 20 (.connError "refused")

/-- An enabled cache whose transport fails on every call. -/
def c9Broken : Redis.RedisCache Nat := { ttl := 20, enabled := true, redis := some c9Backend }

/-- An observation carrying no `scheduled_time` key at all. -/
def c10Fd : Hdf5.FlightData := { flight_number := some "X", status := some "On Time" }

/-! ### Helper lemmas -/

theorem getAssoc_updAssoc_self {α : Type} (l : List (String × α)) (k : String)
    (g : Option α → α) : getAssoc (updAssoc l k g) k = some (g (getAssoc l k)) := by
  induction l with
  | nil => simp [updAssoc, getAssoc]
  | cons hd tl ih =>
    obtain ⟨k', v⟩ := hd
    by_cases h : k' = k
    · subst h; simp [updAssoc, getAssoc]
    · simp [updAssoc, getAssoc, h, ih]

theorem getAssoc_updAssoc_ne {α : Type} (l : List (String × α)) (k k' : String)
    (g : Option α → α) (h : k' ≠ k) : getAssoc (updAssoc l k g) k' = getAssoc l k' := by
  have h' : k ≠ k' := Ne.symm h
  induction l with
  | nil => simp [updAssoc, getAssoc, h']
  | cons hd tl ih =>
    obtain ⟨k'', v⟩ := hd
    by_cases hk : k'' = k
    · subst hk; simp [updAssoc, getAssoc, h']
    · simp [updAssoc, getAssoc, hk, ih]

theorem category?_setCategory_self (f : Hdf5.Store) (ft : String)
    (g b : Hdf5.CatGroup) (h : f.category? ft = some b) :
    (f.setCategory ft g).category? ft = some g := by
  unfold Hdf5.Store.category? Hdf5.Store.setCategory at *
  by_cases h1 : ft = "arrivals" <;> by_cases h2 : ft = "departures" <;> simp_all

/-- In one category group, the write update appends exactly one entry to the
target key's history. -/
theorem historyInCat_write_self (b : Hdf5.CatGroup) (dk fn : String)
    (sv : Hdf5.SchedVal) (now : DateTime) (fd : Hdf5.FlightData) :
    Hdf5.historyInCat
        (updAssoc b dk fun dg? => updAssoc (dg?.getD []) fn (Hdf5.updateGroup fn sv now fd))
        dk fn =
      Hdf5.historyInCat b dk fn ++ [Hdf5.writeEntry fd now] := by
  simp only [Hdf5.historyInCat, getAssoc_updAssoc_self]
  cases h1 : getAssoc b dk with
  | none => simp [getAssoc, Hdf5.updateGroup]
  | some dg =>
    cases h2 : getAssoc dg fn with
    | none => simp [h2, Hdf5.updateGroup]
    | some g => simp [h2, Hdf5.updateGroup]

/-- In one category group, the write update leaves every other key's history
untouched. -/
theorem historyInCat_write_ne (b : Hdf5.CatGroup) (dk fn dk' fn' : String)
    (sv : Hdf5.SchedVal) (now : DateTime) (fd : Hdf5.FlightData)
    (hne : ¬(dk' = dk ∧ fn' = fn)) :
    Hdf5.historyInCat
        (updAssoc b dk fun dg? => updAssoc (dg?.getD []) fn (Hdf5.updateGroup fn sv now fd))
        dk' fn' =
      Hdf5.historyInCat b dk' fn' := by
  by_cases hdk : dk' = dk
  · subst hdk
    have hfn : fn' ≠ fn := fun hc => hne ⟨rfl, hc⟩
    simp only [Hdf5.historyInCat, getAssoc_updAssoc_self]
    cases h1 : getAssoc b dk' with
    | none => simp [getAssoc_updAssoc_ne _ _ _ _ hfn, getAssoc, Ne.symm hfn]
    | some dg => simp [getAssoc_updAssoc_ne _ _ _ _ hfn]
  · simp [Hdf5.historyInCat, getAssoc_updAssoc_ne _ _ _ _ hdk]

/-- Core behaviour of one successful `_write_flight_sync` once the bucket
datetime and the category group are resolved: the target key's history grows
by exactly the one new entry and every other key is untouched. -/
theorem writeFlightSync_spec (f : Hdf5.Store) (fd : Hdf5.FlightData) (ft : String)
    (now dt : DateTime) (b : Hdf5.CatGroup)
    (hdt : Hdf5.resolveDt (fd.scheduled_time.getD (.str now.isoformat)) now = some dt)
    (hb : f.category? ft = some b) :
    ∃ f', Hdf5.writeFlightSync f fd ft now = some f' ∧
      Hdf5.historyAt f' ft (printDateKey dt.day) (fd.flight_number.getD "UNKNOWN") =
        Hdf5.historyAt f ft (printDateKey dt.day) (fd.flight_number.getD "UNKNOWN") ++
          [Hdf5.writeEntry fd now] ∧
      ∀ dk' fn', ¬(dk' = printDateKey dt.day ∧ fn' = fd.flight_number.getD "UNKNOWN") →
        Hdf5.historyAt f' ft dk' fn' = Hdf5.historyAt f ft dk' fn' := by
  refine ⟨f.setCategory ft (updAssoc b (printDateKey dt.day) fun dg? =>
      updAssoc (dg?.getD []) (fd.flight_number.getD "UNKNOWN")
        (Hdf5.updateGroup (fd.flight_number.getD "UNKNOWN")
          (fd.scheduled_time.getD (.str now.isoformat)) now fd)), ?_, ?_, ?_⟩
  · simp only [Hdf5.writeFlightSync, hdt, hb]
  · simp only [Hdf5.historyAt, hb,
      category?_setCategory_self f ft _ b hb, historyInCat_write_self]
  · intro dk' fn' hne
    simp only [Hdf5.historyAt, hb,
      category?_setCategory_self f ft _ b hb, historyInCat_write_ne _ _ _ _ _ _ _ _ hne]

/-- Inversion: a successful write pins down a resolved datetime and a valid
category. -/
theorem writeFlightSync_some_inv (f : Hdf5.Store) (fd : Hdf5.FlightData) (ft : String)
    (now : DateTime) (f' : Hdf5.Store)
    (h : Hdf5.writeFlightSync f fd ft now = some f') :
    ∃ dt b, Hdf5.resolveDt (fd.scheduled_time.getD (.str now.isoformat)) now = some dt ∧
      f.category? ft = some b := by
  simp only [Hdf5.writeFlightSync] at h
  cases hdt : Hdf5.resolveDt (fd.scheduled_time.getD (.str now.isoformat)) now with
  | none => rw [hdt] at h; simp at h
  | some dt =>
    rw [hdt] at h
    cases hb : f.category? ft with
    | none => rw [hb] at h; simp at h
    | some b => exact ⟨dt, b, rfl, rfl⟩

/-- The outer loop of `get_flights` is the date filter followed by the
per-bucket record conversion. -/
theorem collectBuckets_eq (ft : String) (cutoff : DateTime) (grp : Hdf5.CatGroup) :
    Hdf5.collectBuckets ft cutoff grp =
      (grp.filter fun bucket =>
          match parseDateKey bucket.1 with
          | some d => decide (cutoff.toSecs ≤ d * 86400)
          | none => false).flatMap fun bucket => Hdf5.bucketRecords ft bucket.2 := by
  induction grp with
  | nil => simp [Hdf5.collectBuckets]
  | cons hd tl ih =>
    obtain ⟨k, dg⟩ := hd
    simp only [Hdf5.collectBuckets]
    cases hk : parseDateKey k with
    | none => simpa [List.filter, hk] using ih
    | some d =>
      by_cases hlt : (DateTime.mk d 0).toSecs < cutoff.toSecs
      · have hd2 : ¬(cutoff.toSecs ≤ d * 86400) := by
          simp only [DateTime.toSecs] at hlt ⊢; omega
        simp [List.filter, hk, hlt, hd2, ih]
      · have hd2 : cutoff.toSecs ≤ d * 86400 := by
          simp only [DateTime.toSecs] at hlt ⊢; omega
        simp [List.filter, hk, hlt, hd2, ih]

/-! ### Claim theorems -/

/-- C1: each successful upsert appends exactly one entry to the written
key's status_history (its length grows by one, all other keys untouched);
the appended timestamp is the write's wall clock, so histories stay
non-decreasing under a monotone clock; and after three upserts to the same
key on the same day, `query('arrivals', since_days=1)` returns exactly one
record for that key whose current_status equals the third upsert's status,
the stored history having length 3. -/
theorem c1_upsert_appends_history :
    (∀ (f f' : Hdf5.Store) (fd : Hdf5.FlightData) (ft : String) (now : DateTime),
       Hdf5.writeFlightSync f fd ft now = some f' →
       ∃ dk,
         Hdf5.historyAt f' ft dk (fd.flight_number.getD "UNKNOWN") =
           Hdf5.historyAt f ft dk (fd.flight_number.getD "UNKNOWN") ++
             [Hdf5.writeEntry fd now] ∧
         (Hdf5.historyAt f' ft dk (fd.flight_number.getD "UNKNOWN")).length =
           (Hdf5.historyAt f ft dk (fd.flight_number.getD "UNKNOWN")).length + 1 ∧
         ∀ dk' fn', ¬(dk' = dk ∧ fn' = fd.flight_number.getD "UNKNOWN") →
           Hdf5.historyAt f' ft dk' fn' = Hdf5.historyAt f ft dk' fn') ∧
    (∀ (f f' : Hdf5.Store) (fd : Hdf5.FlightData) (ft : String) (now : DateTime)
       (dk fn : String),
       Hdf5.writeFlightSync f fd ft now = some f' →
       (Hdf5.historyAt f ft dk fn).Pairwise
         (fun a b => a.timestamp.toSecs ≤ b.timestamp.toSecs) →
       (∀ e ∈ Hdf5.historyAt f ft dk fn, e.timestamp.toSecs ≤ now.toSecs) →
       (Hdf5.historyAt f' ft dk fn).Pairwise
         (fun a b => a.timestamp.toSecs ≤ b.timestamp.toSecs)) ∧
    c1Store3.isSome = true ∧
    (c1Store3.map fun s =>
       (Hdf5.getFlights s "arrivals" 1 ⟨19737, 400⟩).map fun r =>
         (r.flight_number, r.current_status)) = some [("AA123", some "Landed")] ∧
    (c1Store3.map fun s =>
       (Hdf5.historyAt s "arrivals" "2024-01-15" "AA123").length) = some 3 := by
  have hpart1 : ∀ (f f' : Hdf5.Store) (fd : Hdf5.FlightData) (ft : String) (now : DateTime),
      Hdf5.writeFlightSync f fd ft now = some f' →
      ∃ dk,
        Hdf5.historyAt f' ft dk (fd.flight_number.getD "UNKNOWN") =
          Hdf5.historyAt f ft dk (fd.flight_number.getD "UNKNOWN") ++
            [Hdf5.writeEntry fd now] ∧
        (Hdf5.historyAt f' ft dk (fd.flight_number.getD "UNKNOWN")).length =
          (Hdf5.historyAt f ft dk (fd.flight_number.getD "UNKNOWN")).length + 1 ∧
        ∀ dk' fn', ¬(dk' = dk ∧ fn' = fd.flight_number.getD "UNKNOWN") →
          Hdf5.historyAt f' ft dk' fn' = Hdf5.historyAt f ft dk' fn' := by
    intro f f' fd ft now hw
    obtain ⟨dt, b, hdt, hb⟩ := writeFlightSync_some_inv f fd ft now f' hw
    obtain ⟨f'', hw2, happ, hframe⟩ := writeFlightSync_spec f fd ft now dt b hdt hb
    have heq : f'' = f' := by
      rw [hw2] at hw; exact Option.some.inj hw
    subst heq
    exact ⟨printDateKey dt.day, happ, by rw [happ]; simp, hframe⟩
  refine ⟨hpart1, ?_, by decide, by decide, by decide⟩
  intro f f' fd ft now dk fn hw hsort hle
  obtain ⟨dk0, happ, hlen, hframe⟩ := hpart1 f f' fd ft now hw
  by_cases hcase : dk = dk0 ∧ fn = fd.flight_number.getD "UNKNOWN"
  · obtain ⟨h1, h2⟩ := hcase
    subst h1; subst h2
    rw [happ, List.pairwise_append]
    refine ⟨hsort, by simp, ?_⟩
    intro a ha c hc
    rw [List.mem_singleton] at hc
    subst hc
    exact hle a ha
  · rw [hframe dk fn hcase]
    exact hsort

/-- Witness for C1: the first upsert of the scenario, with its hypotheses
discharged at the empty store. -/
theorem c1_upsert_appends_history_witness :
    Hdf5.writeFlightSync {} (c1Flight "On Time") "arrivals" ⟨19737, 100⟩ = some c1S1 ∧
    (Hdf5.historyAt c1S1 "arrivals" "2024-01-15" "AA123").Pairwise
      (fun a b => a.timestamp.toSecs ≤ b.timestamp.toSecs) := by
  have hw : Hdf5.writeFlightSync {} (c1Flight "On Time") "arrivals" ⟨19737, 100⟩ =
      some c1S1 := by decide
  refine ⟨hw, ?_⟩
  refine c1_upsert_appends_history.2.1 {} c1S1 (c1Flight "On Time") "arrivals"
    ⟨19737, 100⟩ "2024-01-15" "AA123" hw List.Pairwise.nil ?_
  intro e he
  rw [show Hdf5.historyAt {} "arrivals" "2024-01-15" "AA123" = [] from rfl] at he
  cases he

/-- C2: for every input flight dict, `save_flight` returns normally and
leaves the `flights` table unchanged — the INSERT declares 21 placeholders
but `execute` is handed a 12-value tuple, so the statement always fails and
the exception is swallowed; consequently `save_flights_batch` persists none
of its records for every input list. -/
theorem c2_save_flight_always_noop :
    FlightHistory.countPlaceholders FlightHistory.insertFlightsSQL = 21 ∧
    (∀ flight : FlightHistory.FlightDict, (FlightHistory.paramsOf flight).length = 12) ∧
    (∀ (tbl : FlightHistory.Table) (flight : FlightHistory.FlightDict),
       FlightHistory.saveFlight tbl flight = tbl) ∧
    (∀ (tbl : FlightHistory.Table) (flights : List FlightHistory.FlightDict),
       FlightHistory.saveFlightsBatch tbl flights = tbl) := by
  have h21 : FlightHistory.countPlaceholders FlightHistory.insertFlightsSQL = 21 := by decide
  have h12 : ∀ flight : FlightHistory.FlightDict,
      (FlightHistory.paramsOf flight).length = 12 := fun _ => rfl
  have hsave : ∀ (tbl : FlightHistory.Table) (flight : FlightHistory.FlightDict),
      FlightHistory.saveFlight tbl flight = tbl := by
    intro tbl flight
    unfold FlightHistory.saveFlight FlightHistory.executeInsert
    rw [h12 flight, h21]
    simp
  refine ⟨h21, h12, hsave, ?_⟩
  intro tbl flights
  induction flights generalizing tbl with
  | nil => rfl
  | cons hd tl ih =>
    have hstep : FlightHistory.saveFlightsBatch tbl (hd :: tl) =
        FlightHistory.saveFlightsBatch (FlightHistory.saveFlight tbl hd) tl := rfl
    rw [hstep, hsave, ih]

/-- C3: the claim `0 ≤ risk_score` fails on the code — at a flight scheduled
23:30 with no other data, the only triggered rule is the −5 off-peak
discount and `min(100, risk_score)` has no lower clamp, so `predict` returns
`risk_score = -5`, contradicting its own docstring range `0-100`. -/
theorem c3_negative_risk_score_off_peak :
    (Predictor.predict c3Flight none).risk_score = -5 ∧
    ¬(0 ≤ (Predictor.predict c3Flight none).risk_score) ∧
    (Predictor.predict c3Flight none).factors = [Predictor.Factor.offPeak] ∧
    (Predictor.predict c3Flight none).confidence = 60 := by
  refine ⟨by decide, by decide, by decide, by decide⟩

/-- C4: on the severe-weather scenario (0.6in precipitation, 40mph wind,
0.5mi visibility, Thunderstorm, 07:00 schedule, carrier NK at 28%, arrival
from ORD, no inbound data) `predict` returns `risk_score = 100` (clamped),
`risk_level = High`, and exactly the seven factor strings in evaluation
order. -/
theorem c4_severe_weather_scenario :
    Predictor.predict c4Flight (some c4Weather) =
      { risk_level := "High", risk_score := 100, confidence := 100,
        factors := [.heavyPrecipitation (mkRat 6 10), .highWinds 40,
                    .veryLowVisibility (mkRat 1 2),
                    .severeWeather (some "Thunderstorm"), .morningRush,
                    .higherDelayRate "NK", .majorHub "ORD"],
        recommendation := "Consider alternate flights or allow extra time" } := by
  decide

/-- C5 (counterexample): the claim says the airline contribution equals
`round(delay_rate / 30 * 20)`; for carrier UA the table rate is 16, the code
computes `int((16/30)*20) = 10`, but `round(16/30*20) = 11`. -/
theorem c5_round_counterexample :
    getAssoc Predictor.AIRLINE_DELAY_RATES "UA" = some 16 ∧
    (Predictor.evaluateAirline { Airline := some "UA" }).1 = 10 ∧
    (round ((16 : ℚ) / 30 * 20) : ℤ) = 11 ∧ (10 : Int) ≠ 11 := by
  refine ⟨by decide, by decide, ?_, by decide⟩
  have h : (16 : ℚ) / 30 * 20 + 1 / 2 = 67 / 6 := by norm_num
  rw [round_eq, h, Int.floor_eq_iff]
  constructor <;> norm_num

/-- C5 (amended): the airline contribution is the float truncation
`int(delay_rate / 30 * 20)` — the floor `delay_rate * 20 / 30` — not the
rounding; the `> 25%` and `< 15%` factor strings and the
absent-carrier zero contribution are as claimed. -/
theorem c5_airline_contribution_floor :
    (∀ (flight : Predictor.Flight) (a : String) (rate : Nat),
       flight.Airline = some a → a ≠ "" →
       getAssoc Predictor.AIRLINE_DELAY_RATES (strUpper (strTake a 2)) = some rate →
       Predictor.evaluateAirline flight =
         (((rate * 20 / 30 : Nat) : Int),
          if rate > 25 then [Predictor.Factor.higherDelayRate a]
          else if rate < 15 then [Predictor.Factor.goodOnTime a] else [])) ∧
    (∀ (flight : Predictor.Flight) (a : String),
       flight.Airline = some a → a ≠ "" →
       getAssoc Predictor.AIRLINE_DELAY_RATES (strUpper (strTake a 2)) = none →
       Predictor.evaluateAirline flight = (0, [])) := by
  constructor
  · intro flight a rate ha hne hrate
    simp [Predictor.evaluateAirline, ha, hne, hrate]
  · intro flight a ha hne hrate
    simp [Predictor.evaluateAirline, ha, hne, hrate]

/-- Witness for C5 (amended), instantiated at carrier NK (rate 28). -/
theorem c5_airline_contribution_floor_witness :
    Predictor.evaluateAirline { Airline := some "NK" } =
      (((28 * 20 / 30 : Nat) : Int),
       if 28 > 25 then [Predictor.Factor.higherDelayRate "NK"]
       else if 28 < 15 then [Predictor.Factor.goodOnTime "NK"] else []) :=
  c5_airline_contribution_floor.1 { Airline := some "NK" } "NK" 28 rfl (by decide) (by decide)

/-- C7: the claim says retention cleanup deletes over-age artifacts of every
kind; the code globs only `flight_history_*.db*`, so a 10-day-old hourly
HDF5 artifact (hourly cutoff: 0.5 days) survives `cleanup_old_backups`
while its equally old SQLite twin is deleted. -/
theorem c7_hdf5_backup_never_cleaned :
    Backup.cleanupOldBackups {} 1000000000 c7Dir =
      [⟨"flight_history_hourly_20240101_000000.h5", 999136000⟩] ∧
    Backup.matchesDbGlob "flight_history_hourly_20240101_000000.h5" = false ∧
    (1000000000 : Int) - 999136000 = 10 * 86400 := by
  refine ⟨by decide, by decide, by decide⟩

/-- C8 (counterexample): a successful `create_backup` with both stores
present creates exactly the two timestamped artifacts and no `.json`
metadata sidecar, contradicting the claim that a sidecar is written. -/
theorem c8_no_metadata_sidecar :
    (Backup.createBackup "manual" "20240101_120000" true true).ret ≠ none ∧
    (Backup.createBackup "manual" "20240101_120000" true true).created =
      ["flight_history_manual_20240101_120000.db",
       "flight_history_manual_20240101_120000.h5"] ∧
    ((Backup.createBackup "manual" "20240101_120000" true true).created.filter
       fun n => strEndsWith n ".json").length = 0 := by
  refine ⟨by decide, by decide, by decide⟩

/-- C8 (amended): `create_backup` copies each existing source store to a
timestamped artifact and returns the descriptor list, or `None` exactly when
no source store exists, without raising; it writes no metadata sidecar. -/
theorem c8_create_backup_amended :
    ∀ (backup_type timestamp : String) (dbExists hdf5Exists : Bool),
      (Backup.createBackup backup_type timestamp dbExists hdf5Exists).created =
        (if dbExists then [Backup.sqliteBackupName backup_type timestamp] else []) ++
        (if hdf5Exists then [Backup.hdf5BackupName backup_type timestamp] else []) ∧
      ((Backup.createBackup backup_type timestamp dbExists hdf5Exists).ret = none ↔
        dbExists = false ∧ hdf5Exists = false) := by
  intro bt ts dbE h5E
  cases dbE <;> cases h5E <;> simp [Backup.createBackup]

/-- C6 (counterexample): with `since_days = 1` and the clock at 01:00 of
2024-01-15 (epoch day 19737), the record stored under the bucket dated
exactly `today - since_days` (2024-01-14) is NOT returned — the cutoff
`now - timedelta(days=1)` carries the time of day, so the bucket's midnight
falls strictly before it, contradicting the claimed inclusive window. -/
theorem c6_boundary_bucket_excluded :
    parseDateKey "2024-01-14" = some (19737 - 1) ∧
    Hdf5.getFlights c6Store "arrivals" 1 ⟨19737, 3600⟩ = [] := by
  refine ⟨by decide, by decide⟩

/-- C6 (amended): `query(category, since_days)` returns exactly the records
of the buckets whose key parses as `YYYY-MM-DD` to a day `d` with
`midnight(d) ≥ now - since_days` (so the bucket dated exactly
`today - since_days` is included only when the query runs at midnight, and
future-dated buckets are always included); buckets with unparseable keys
never match and never raise; each returned record carries `current_status`
and `status_updated_at` from the last `status_history` entry. -/
theorem c6_query_window_characterization :
    (∀ (f : Hdf5.Store) (ft : String) (days : Int) (now : DateTime),
       Hdf5.getFlights f ft days now =
         (((f.category? ft).getD []).filter fun bucket =>
             match parseDateKey bucket.1 with
             | some d => decide ((now.day - days) * 86400 + now.sec ≤ d * 86400)
             | none => false).flatMap
           fun bucket => Hdf5.bucketRecords ft bucket.2) ∧
    (∀ (ftype : String) (g : Hdf5.FlightGroup),
       (Hdf5.recordOf ftype g).current_status =
         g.status_history.getLast?.map (·.status) ∧
       (Hdf5.recordOf ftype g).status_updated_at =
         g.status_history.getLast?.map (·.timestamp)) := by
  constructor
  · intro f ft days now
    unfold Hdf5.getFlights
    cases hc : f.category? ft with
    | none => simp
    | some grp =>
      simp only [Option.getD_some]
      have h := collectBuckets_eq ft ⟨now.day - days, now.sec⟩ grp
      simpa [DateTime.toSecs] using h
  · exact fun ftype g => ⟨rfl, rfl⟩

/-- C9: an unreachable backend at construction time yields a cache with
`enabled = false` instead of raising; a disabled cache's `get` always
returns the miss sentinel and its `set` is a `False`-returning no-op; and a
transport failure inside `get` is observed identically to a miss. -/
theorem c9_cache_degrades_silently :
    (∀ (α : Type) (ttl : Int) (msg : String),
       (Redis.RedisCache.init (α := α) ttl (.connError msg)).enabled = false ∧
       (Redis.RedisCache.init (α := α) ttl (.timeoutError msg)).enabled = false) ∧
    (∀ (α : Type) (c : Redis.RedisCache α) (key : String),
       c.enabled = false → c.get key = none) ∧
    (∀ (α : Type) (c : Redis.RedisCache α) (key : String) (v : α) (ttl : Option Int),
       c.enabled = false → c.set key v ttl = false) ∧
    (∀ (α : Type) (c : Redis.RedisCache α) (b : Redis.Backend α) (key msg : String),
       c.redis = some b → b.getResp key = .error msg → c.get key = none) := by
  refine ⟨fun α ttl msg => ⟨rfl, rfl⟩, ?_, ?_, ?_⟩
  · intro α c key h
    simp [Redis.RedisCache.get, h]
  · intro α c key v ttl h
    simp [Redis.RedisCache.set, h]
  · intro α c b key msg hb herr
    cases henb : c.enabled <;> simp [Redis.RedisCache.get, hb, herr, henb]

/-- Witness for C9: a cache built against a refused connection, and an
enabled cache whose transport raises on every call. -/
theorem c9_cache_degrades_silently_witness :
    c9Disabled.enabled = false ∧
    c9Disabled.get "flights:arrivals" = none ∧
    c9Disabled.set "flights:arrivals" 7 none = false ∧
    c9Broken.get "flights:arrivals" = none := by
  refine ⟨(c9_cache_degrades_silently.1 Nat 20 "refused").1, ?_, ?_, ?_⟩
  · exact c9_cache_degrades_silently.2.1 Nat c9Disabled "flights:arrivals" rfl
  · exact c9_cache_degrades_silently.2.2.1 Nat c9Disabled "flights:arrivals" 7 none rfl
  · exact c9_cache_degrades_silently.2.2.2 Nat c9Broken c9Backend "flights:arrivals" "boom" rfl rfl

/-- An observation whose scheduled_time is the explicit `N/A` sentinel. -/
def c10NaFd : Hdf5.FlightData :=
  { flight_number := some "X", scheduled_time := some (.str "N/A"),
    status := some "On Time" }

/-- C10: an observation whose scheduled_time is the explicit sentinel `N/A`
(or the empty string, or absent) is stored under today's date bucket and the
write returns successfully; the absent-key case is checked at a concrete
clock (2024-01-15, for which the `datetime.now().isoformat()` default
round-trips to the same day). -/
theorem c10_na_scheduled_time_today_bucket :
    (∀ (f : Hdf5.Store) (fd : Hdf5.FlightData) (ft : String) (now : DateTime)
       (b : Hdf5.CatGroup),
       fd.scheduled_time = some (.str "N/A") ∨ fd.scheduled_time = some (.str "") →
       f.category? ft = some b →
       ∃ f', Hdf5.writeFlightSync f fd ft now = some f' ∧
         Hdf5.historyAt f' ft (printDateKey now.day) (fd.flight_number.getD "UNKNOWN") =
           Hdf5.historyAt f ft (printDateKey now.day) (fd.flight_number.getD "UNKNOWN") ++
             [Hdf5.writeEntry fd now]) ∧
    c10Fd.scheduled_time = none ∧
    ((Hdf5.writeFlightSync {} c10Fd "arrivals" ⟨19737, 30000⟩).map
       fun s => s.arrivals.map (·.1)) = some ["2024-01-15"] ∧
    printDateKey 19737 = "2024-01-15" := by
  refine ⟨?_, rfl, by decide, by decide⟩
  intro f fd ft now b hsent hb
  have hdt : Hdf5.resolveDt (fd.scheduled_time.getD (.str now.isoformat)) now =
      some now := by
    rcases hsent with h | h <;> rw [h] <;> rfl
  obtain ⟨f', hw, happ, -⟩ := writeFlightSync_spec f fd ft now now b hdt hb
  exact ⟨f', hw, happ⟩

/-- Witness for C10 at a concrete `N/A` observation against the empty
store. -/
theorem c10_na_scheduled_time_today_bucket_witness :
    (Hdf5.writeFlightSync {} c10NaFd "arrivals" ⟨19737, 0⟩).isSome = true := by
  obtain ⟨f', hw, -⟩ :=
    c10_na_scheduled_time_today_bucket.1 {} c10NaFd "arrivals" ⟨19737, 0⟩ []
      (Or.inl rfl) rfl
  rw [hw]
  rfl

end FlightTracker
